import Mathlib

/-!
Verification development for `ai_analyzer_server.py` (Stockron v11.2 backend).

Shallow embedding conventions:
* Python floats are idealised as exact rationals (`ℚ`); the non-finite float
  values NaN, inf and -inf are represented explicitly in `PyFloat`.
* `round(x)` / `round(x, n)` are modelled as exact decimal rounding half to
  even (Python's documented rounding mode).
* A pandas series is a `List ℚ`; a rolling result is a `List (Option ℚ)`
  where `none` stands for NaN (an undefined position).
* Fallible provider calls are modelled by `Option` fields of a `Provider`
  record; raising an uncaught `HTTPException` is modelled by `Except.error`.
-/

set_option autoImplicit false

namespace Stockron

/-- Round half to even of a rational to an integer (Python `round(x)`). -/
def rhe (q : ℚ) : ℤ :=
  let f : ℤ := ⌊q⌋
  let r : ℚ := q - f
  if r < 1/2 then f
  else if 1/2 < r then f + 1
  else if f % 2 = 0 then f else f + 1

/-- Python `round(x, 2)`: decimal rounding half to even at two places. -/
def round2 (q : ℚ) : ℚ := (rhe (q * 100) : ℚ) / 100

/-- Python `round(x, 4)`: decimal rounding half to even at four places. -/
def round4 (q : ℚ) : ℚ := (rhe (q * 10000) : ℚ) / 10000

/-- A Python float value: finite (idealised as an exact rational), or one of
the non-finite values NaN, +inf, -inf. -/
inductive PyFloat where
  | finite (q : ℚ)
  | nan
  | inf
  | ninf
deriving DecidableEq, Repr

/-- The Python values that can reach `_safe_float`: `None`, `int` (with
`bool` as its subtype), `float`, `str`, or anything else. -/
inductive PyVal where
  | none
  | int (n : ℤ)
  | bool (b : Bool)
  | float (x : PyFloat)
  | str (s : String)
  | other
deriving DecidableEq, Repr

/-- Python `str.upper()` (per character). -/
def pyUpper (s : String) : String := String.mk (s.toList.map Char.toUpper)

/-- Python `str.lower()` (per character). -/
def pyLower (s : String) : String := String.mk (s.toList.map Char.toLower)

/-- Python `str.strip()`: drop leading and trailing whitespace. -/
def pyStrip (s : String) : String :=
  String.mk (((s.toList.dropWhile Char.isWhitespace).reverse.dropWhile Char.isWhitespace).reverse)

/-- Python `s.replace(ch, "")` for a single-character pattern: remove every
occurrence of the character. -/
def pyRemoveChar (c : Char) (s : String) : String :=
  String.mk (s.toList.filter fun x => x ≠ c)

/-- Value of a digit list read as a natural number, `none` on a non-digit.
Embeds the digit-string core of Python `float()` parsing. -/
def digitsVal (cs : List Char) : Option Nat :=
  cs.foldl
    (fun acc c =>
      match acc with
      | Option.none => Option.none
      | Option.some n => if c.isDigit then Option.some (n * 10 + (c.toNat - 48)) else Option.none)
    (Option.some 0)

/-- Character-level decomposition of a decimal literal: the sign, the
integer-part value, the fractional-part value and its digit count;
`none` when the characters are not a decimal literal. -/
def parseParts (cs : List Char) : Option (Bool × Nat × Nat × Nat) :=
  let signRest : Bool × List Char :=
    match cs with
    | '-' :: t => (true, t)
    | '+' :: t => (false, t)
    | _ => (false, cs)
  let neg := signRest.1
  let rest := signRest.2
  let intPart := rest.takeWhile Char.isDigit
  let rest2 := rest.dropWhile Char.isDigit
  match rest2 with
  | [] =>
      if intPart = [] then Option.none
      else
        match digitsVal intPart with
        | Option.some n => Option.some (neg, n, 0, 0)
        | Option.none => Option.none
  | '.' :: frac =>
      if intPart = [] ∧ frac = [] then Option.none
      else
        match digitsVal intPart, digitsVal frac with
        | Option.some n, Option.some m => Option.some (neg, n, m, frac.length)
        | _, _ => Option.none
  | _ => Option.none

/-- Embedding of Python `float(s)` restricted to plain decimal literals
(optional sign, integer part, optional fractional part).  Strings Python
would parse to a non-finite value (`"inf"`, `"nan"`) return `none` here;
in `_safe_float` both roads lead to the fallback, so the embedding agrees
with the source on every output of `_safe_float`. -/
def parseFloat (s : String) : Option ℚ :=
  match parseParts s.toList with
  | Option.some (neg, n, m, k) =>
      Option.some ((if neg then (-1 : ℚ) else 1) * ((n : ℚ) + (m : ℚ) / (10 : ℚ) ^ k))
  | Option.none => Option.none

/-- The string cleaning `_safe_float` applies before parsing:
`v.replace(",", "").replace("%", "").strip()`. -/
def cleanNumStr (s : String) : String :=
  pyStrip (pyRemoveChar '%' (pyRemoveChar ',' s))

/-- Embedding of `_safe_float(v, fb)` (src lines 64-76): `None` maps to the
fallback, a finite numeric value is cast to float, a string is cleaned and
parsed (parse failure or non-finite result mapping to the fallback), and
every other value, or any exception, maps to the fallback. -/
def safeFloat (v : PyVal) (fb : Option ℚ) : Option ℚ :=
  match v with
  | PyVal.none => fb
  | PyVal.int n => Option.some (n : ℚ)
  | PyVal.bool b => Option.some (if b then 1 else 0)
  | PyVal.float (PyFloat.finite q) => Option.some q
  | PyVal.float _ => fb
  | PyVal.str s =>
      match parseFloat (cleanNumStr s) with
      | Option.some x => Option.some x
      | Option.none => fb
  | PyVal.other => fb

/-- View an optional rolling value as the Python scalar `_safe_float`
receives: a finite float, or NaN for an undefined (missing) position. -/
def ofNanOpt (x : Option ℚ) : PyVal :=
  match x with
  | Option.some q => PyVal.float (PyFloat.finite q)
  | Option.none => PyVal.float PyFloat.nan

/-- The bars a pandas rolling window of size `w` sees at position `i`:
the up-to-`w` entries ending at index `i`. -/
def windowAt (s : List ℚ) (w i : Nat) : List ℚ :=
  (s.take (i + 1)).drop (i + 1 - w)

/-- Mean of a list of rationals (`0` for the empty list, which never occurs
at a defined rolling position). -/
def listMean (l : List ℚ) : ℚ := l.sum / l.length

/-- `series.rolling(window=w, min_periods=m).mean()` on a NaN-free series:
position `i` holds the mean of the window ending at `i` when at least `m`
bars are in that window, and NaN (`none`) otherwise. -/
def rollingMean (s : List ℚ) (w m : Nat) : List (Option ℚ) :=
  (List.range s.length).map fun i =>
    if m ≤ (windowAt s w i).length then Option.some (listMean (windowAt s w i))
    else Option.none

/-- The `min_periods` the source passes to every rolling mean:
`max(2, w // 2)` (src lines 79, 84, 209, 228). -/
def minPeriodsOf (w : Nat) : Nat := max 2 (w / 2)

/-- Embedding of `_sma(s, w)` (src lines 78-79). -/
def smaSeries (s : List ℚ) (w : Nat) : List (Option ℚ) :=
  rollingMean s w (minPeriodsOf w)

/-- The true-range series of `_atr` (src lines 82-83): at position 0 the
previous close is NaN and pandas `max(axis=1)` skips it, leaving `|h-l|`;
later positions take the max of the three absolute differences. -/
def trueRange (h l c : List ℚ) : List ℚ :=
  (List.range h.length).map fun i =>
    match i with
    | 0 => |h.getD 0 0 - l.getD 0 0|
    | Nat.succ j =>
        max (|h.getD (j + 1) 0 - l.getD (j + 1) 0|)
          (max (|h.getD (j + 1) 0 - c.getD j 0|) (|l.getD (j + 1) 0 - c.getD j 0|))

/-- Embedding of `_atr(h, l, c, w)` (src lines 81-84). -/
def atrSeries (h l c : List ℚ) (w : Nat) : List (Option ℚ) :=
  rollingMean (trueRange h l c) w (minPeriodsOf w)

/-- `series.iloc[-1]` on a rolling result: the last entry, NaN (`none`)
when it is an undefined position. -/
def lastValue (l : List (Option ℚ)) : Option ℚ :=
  l.getLast?.getD Option.none

/-- The nine canonical fundamentals keys, in the insertion order of the
source dict (src lines 120-130). -/
def canonicalKeys : List String :=
  ["PE Ratio", "Forward PE", "PS Ratio", "PEG Ratio", "Revenue Growth",
   "EPS Growth", "Beta", "Debt/Equity", "Market Cap"]

/-- The all-null fundamentals snapshot the source initialises `out` with. -/
def nullSnapshot : List (String × Option ℚ) :=
  canonicalKeys.map fun k => (k, Option.none)

/-- The provider-side state `_fetch_fundamentals` reads: whether `tkr.info`
raises, and otherwise the info bag (`none` models a falsy `tkr.info`,
which `info = tkr.info or {}` turns into the empty dict). -/
structure FundSource where
  raises : Bool
  info : Option (String → PyVal)

/-- `info.get(k)` after `info = tkr.info or {}`: `None` for every key of a
missing bag, otherwise the bag's value. -/
def infoGet (fs : FundSource) (k : String) : PyVal :=
  match fs.info with
  | Option.some f => f k
  | Option.none => PyVal.none

/-- Embedding of `_fetch_fundamentals` (src lines 116-144): on a
provider-side exception the initial all-null snapshot is returned,
otherwise each canonical key is filled with `_safe_float` of the
corresponding info field (fallback `None`). -/
def fetchFundamentals (fs : FundSource) : List (String × Option ℚ) :=
  if fs.raises then nullSnapshot
  else
    [("PE Ratio", safeFloat (infoGet fs "trailingPE") Option.none),
     ("Forward PE", safeFloat (infoGet fs "forwardPE") Option.none),
     ("PS Ratio", safeFloat (infoGet fs "priceToSalesTrailing12Months") Option.none),
     ("PEG Ratio", safeFloat (infoGet fs "pegRatio") Option.none),
     ("Revenue Growth", safeFloat (infoGet fs "revenueGrowth") Option.none),
     ("EPS Growth", safeFloat (infoGet fs "earningsGrowth") Option.none),
     ("Beta", safeFloat (infoGet fs "beta") Option.none),
     ("Debt/Equity", safeFloat (infoGet fs "debtToEquity") Option.none),
     ("Market Cap", safeFloat (infoGet fs "marketCap") Option.none)]

/-- Python `f.get(k)` on a fundamentals dict whose values are optional
floats: `None` both for a missing key and for a stored `None`. -/
def dictGet (f : List (String × Option ℚ)) (k : String) : Option ℚ :=
  match f.lookup k with
  | Option.some v => v
  | Option.none => Option.none

/-- Python truthiness of an optional float: `None` and `0.0` are falsy. -/
def optTruthy (x : Option ℚ) : Bool :=
  match x with
  | Option.none => false
  | Option.some q => decide (q ≠ 0)

/-- The clamp of `_scores_from` (src line 180): `max(0, min(100, round(x)))`
cast back to float.  (The source line carries a stray extra closing
parenthesis; the evident clamp is embedded.) -/
def clampScore (x : ℚ) : ℚ := ((max 0 (min 100 (rhe x)) : ℤ) : ℚ)

/-- The quant sub-score of `_scores_from` before clamping
(src lines 155-165): start at 50, PE and EPS-growth adjustments. -/
def rawQuant (f : List (String × Option ℚ)) : ℚ :=
  let pe := dictGet f "PE Ratio"
  let growthEps := dictGet f "EPS Growth"
  let q1 : ℚ :=
    match pe with
    | Option.none => 50
    | Option.some p => if p < 15 then 50 + 12 else if 60 < p then 50 - 10 else 50
  match growthEps with
  | Option.none => q1
  | Option.some g => if (0.20 : ℚ) < g then q1 + 15 else if g < 0 then q1 - 10 else q1

/-- The quality sub-score before clamping (src lines 167-172). -/
def rawQuality (f : List (String × Option ℚ)) : ℚ :=
  match dictGet f "Debt/Equity" with
  | Option.none => 50
  | Option.some d => if d < (0.5 : ℚ) then 50 + 15 else if (2.0 : ℚ) < d then 50 - 10 else 50

/-- The catalyst sub-score before clamping (src lines 174-178); note the
source guards with Python truthiness (`if growth_eps and ...`). -/
def rawCatalyst (f : List (String × Option ℚ)) : ℚ :=
  let growthEps := dictGet f "EPS Growth"
  let beta := dictGet f "Beta"
  let c1 : ℚ := if optTruthy growthEps && decide ((0.10 : ℚ) < growthEps.getD 0) then 50 + 5 else 50
  if optTruthy beta && decide ((1.5 : ℚ) < beta.getD 0) then c1 - 5 else c1

/-- Embedding of `_scores_from` (src lines 149-183): the three clamped
sub-scores and `overall = round(0.4*quant + 0.4*quality + 0.2*catalyst, 2)`. -/
def scoresFrom (f : List (String × Option ℚ)) : ℚ × ℚ × ℚ × ℚ :=
  (clampScore (rawQuant f), clampScore (rawQuality f), clampScore (rawCatalyst f),
   round2 ((0.4 : ℚ) * clampScore (rawQuant f) + (0.4 : ℚ) * clampScore (rawQuality f)
     + (0.2 : ℚ) * clampScore (rawCatalyst f)))

/-- Embedding of `_stance` (src lines 185-190). -/
def stance (overall : ℚ) : String :=
  if 70 ≤ overall then "Buy"
  else if 55 ≤ overall then "Hold"
  else "Wait"

/-- Embedding of `_risk_from_beta` (src lines 192-201). -/
def riskFromBeta (beta : Option ℚ) : String :=
  match beta with
  | Option.none => "Unknown"
  | Option.some b =>
      if b < (0.8 : ℚ) then "Low"
      else if b < (1.2 : ℚ) then "Medium"
      else if b < (1.6 : ℚ) then "High"
      else "Very High"

/-- The price DataFrame columns the analyzer uses after renaming. -/
structure Df where
  high : List ℚ
  low : List ℚ
  close : List ℚ
deriving DecidableEq, Repr

/-- The zones dict returned by `_compute_zones`. -/
structure Zones where
  buyZone : List ℚ
  sellZone : List ℚ
  rationale : String
deriving DecidableEq, Repr

/-- The window pair `(ma_len, atr_len)` of `_compute_zones`
(src lines 204-207): `investor` gets 200/20, anything else 50/14. -/
def zoneParams (style : String) : Nat × Nat :=
  if style = "investor" then (200, 20) else (50, 14)

/-- The local `ma` of `_compute_zones` (src lines 209-210):
`_safe_float(ma_series.iloc[-1], price)`. -/
def zonesMA (df : Df) (price : ℚ) (style : String) : ℚ :=
  (safeFloat (ofNanOpt (lastValue (rollingMean df.close (zoneParams style).1
    (minPeriodsOf (zoneParams style).1)))) (Option.some price)).getD price

/-- The ATR fallback of `_compute_zones` (src line 211): `max(0.02*price, 0.05)`. -/
def zonesATRFb (price : ℚ) : ℚ := max ((0.02 : ℚ) * price) (0.05 : ℚ)

/-- The local `atr` of `_compute_zones` (src line 211):
`_safe_float(_atr(...).iloc[-1], max(0.02*price, 0.05))`. -/
def zonesATR (df : Df) (price : ℚ) (style : String) : ℚ :=
  (safeFloat (ofNanOpt (lastValue (atrSeries df.high df.low df.close (zoneParams style).2)))
    (Option.some (zonesATRFb price))).getD (zonesATRFb price)

/-- Embedding of `_compute_zones` (src lines 203-220): the last SMA value
with the current price as fallback, the last ATR value with
`max(0.02*price, 0.05)` as fallback, and the two rounded zones. -/
def computeZones (df : Df) (price : ℚ) (style : String) : Zones :=
  { buyZone := [round4 (zonesMA df price style - zonesATR df price style),
      round4 (zonesMA df price style)],
    sellZone := [round4 (price + zonesATR df price style),
      round4 (price + 2 * zonesATR df price style)],
    rationale := pyUpper style ++ " zones: SMA" ++ toString (zoneParams style).1
      ++ " + ATR" ++ toString (zoneParams style).2 }

/-- The `(ma_len, thresh)` pair of `_sell_signal` (src lines 223-226). -/
def sellParams (style : String) : Nat × ℚ :=
  if style = "investor" then (200, (0.05 : ℚ)) else (50, (0.03 : ℚ))

/-- Embedding of `_sell_signal` (src lines 222-237): no signal when the
last SMA is NaN; otherwise triggered exactly when
`price < ma * (1 - thresh)`, with the templated reason and
`stop = round(ma * (1 - 2*thresh), 4)`. -/
def sellSignal (price : ℚ) (df : Df) (style : String) : Bool × Option String × Option ℚ :=
  match lastValue (rollingMean df.close (sellParams style).1
      (minPeriodsOf (sellParams style).1)) with
  | Option.none => (false, Option.none, Option.none)
  | Option.some ma =>
      if price < ma * (1 - (sellParams style).2) then
        (true,
         Option.some ("Close < SMA" ++ toString (sellParams style).1 ++ " by "
           ++ toString ⌊(sellParams style).2 * 100⌋ ++ "%"),
         Option.some (round4 (ma * (1 - 2 * (sellParams style).2))))
      else (false, Option.none, Option.none)

/-- Idealised rendering of a rational in the response text fields (stands
in for Python float formatting, which no claim depends on). -/
def ratRepr (q : ℚ) : String :=
  if q.den = 1 then toString q.num else toString q.num ++ "/" ++ toString q.den

/-- An ASCII apostrophe, as used inside the Hebrew `ai_summary` template. -/
def sq : String := String.singleton (Char.ofNat 39)

/-- `quant_summary` selection (src lines 303-307), with Python truthiness
on the fetched values. -/
def quantSummaryOf (f : List (String × Option ℚ)) : String :=
  if optTruthy (dictGet f "PEG Ratio") && decide ((dictGet f "PEG Ratio").getD 0 < (1.5 : ℚ)) then
    "PEG נמוך יחסית — תמחור אטרקטיבי מול הצמיחה."
  else if optTruthy (dictGet f "PE Ratio") && decide ((60 : ℚ) < (dictGet f "PE Ratio").getD 0) then
    "מכפיל רווח גבוה — דורש צמיחה חזקה להצדקה."
  else "איזון בין מכפילים לצמיחת EPS."

/-- `quality_summary` selection (src lines 309-315): an explicit
`is not None` check, then the Debt/Equity bands. -/
def qualitySummaryOf (f : List (String × Option ℚ)) : String :=
  match dictGet f "Debt/Equity" with
  | Option.none => "מינוף ואיכות מאזנית."
  | Option.some de =>
      if de < (0.5 : ℚ) then "מינוף נמוך והון עצמי יציב — איכות טובה."
      else if (2.0 : ℚ) < de then "מינוף גבוה — רגישות לריבית ומאקרו."
      else "מינוף ואיכות מאזנית."

/-- The constant `catalyst_summary` (src line 317). -/
def catalystSummaryStr : String := "מומנטום וצמיחה עשויים לשמש כקטליזטור."

/-- The constant `educational_notes` list (src lines 340-344). -/
def eduNotes : List String :=
  ["בדוק מגמת הכנסות ורווחיות יחד — לא נתון בודד.",
   "PEG<1.5 עשוי להצביע על תמחור אטרקטיבי.",
   "Debt/Equity נמוך מ-0.5 בדרך כלל חיובי לאיכות."]

/-- The `ai_summary` template (src line 333). -/
def aiSummaryOf (ticker st : String) (overall : ℚ) : String :=
  ticker ++ ": דירוג " ++ sq ++ st ++ sq ++ " עם ציון כולל " ++ ratRepr overall ++ "."

/-- The JSON payload `analyze` returns (src lines 319-346); timestamps are
idealised as rationals (hours). -/
structure AnalysisResult where
  ticker : String
  style : String
  companyName : Option String
  sector : Option String
  price : ℚ
  stance : String
  quantScore : ℚ
  qualityScore : ℚ
  catalystScore : ℚ
  overallScore : ℚ
  quantSummary : String
  qualitySummary : String
  catalystSummary : String
  aiSummary : String
  fundamentalsJson : List (String × Option ℚ)
  buySellZones : Zones
  sellSignal : Bool
  sellReason : Option String
  stopLoss : Option ℚ
  riskLevel : String
  educationalNotes : List String
  lastUpdated : ℚ
deriving DecidableEq, Repr

/-- An `HTTPException` raised out of `analyze`. -/
structure HErr where
  status : Nat
  detail : String
deriving DecidableEq, Repr

/-- The on-disk JSON cache, projected to the two key families the code
uses: `analysis:{ticker}:{style}` entries and `fund:{ticker}:{date}`
entries, each storing a timestamp and a payload. -/
structure Cache where
  analysis : String → Option (ℚ × AnalysisResult)
  fund : String → Option (ℚ × List (String × Option ℚ))

/-- Everything the outside world (yfinance) can give `analyze` for one
ticker: the last daily close (`none` when unresolvable), the price
history for the timeframe (`none` when the fetch raises or the frame is
empty, the case `_fetch_prices_df` turns into an `HTTPException`), the
fundamentals source and the two info metadata fields. -/
structure Provider where
  dailyClose : Option ℚ
  hist : Option Df
  fund : FundSource
  longName : Option String
  sector : Option String

/-- `_is_fresh(ts, ttl)` at current time `now` (src lines 54-59), with
ISO timestamps idealised as rational hour counts. -/
def isFresh (ts ttl now : ℚ) : Bool := decide (now - ts < ttl)

/-- `ANALYSIS_TTL_HOURS` (src line 20). -/
def ANALYSIS_TTL_HOURS : ℚ := 24

/-- `FUND_TTL_HOURS` (src line 21). -/
def FUND_TTL_HOURS : ℚ := 24

/-- A fresh analysis-cache hit: the cached payload when the entry exists
and its timestamp is fresh, `none` otherwise (src lines 258, 261). -/
def lookupFresh (cache : Cache) (k : String) (now : ℚ) : Option AnalysisResult :=
  match cache.analysis k with
  | Option.some e => if isFresh e.1 ANALYSIS_TTL_HOURS now then Option.some e.2 else Option.none
  | Option.none => Option.none

/-- Python `s or dflt` for strings: the default when `s` is empty. -/
def pyOr (s dflt : String) : String := if s = "" then dflt else s

/-- The request body of `/analyze` (src lines 29-33). -/
structure StockRequest where
  ticker : String
  timeframe : String
  style : String
  notes : Option String

/-- `(req.ticker or "").upper().strip()` (src line 248). -/
def reqTicker (req : StockRequest) : String := pyStrip (pyUpper req.ticker)

/-- `(req.style or "swing").lower()` (src line 249). -/
def reqStyle (req : StockRequest) : String := pyLower (pyOr req.style "swing")

/-- The analysis-cache key `analysis:{ticker}:{style}` (src line 256). -/
def reqAKey (req : StockRequest) : String :=
  "analysis:" ++ reqTicker req ++ ":" ++ reqStyle req

/-- `req.notes and req.notes.lower().strip() == "freeze"` (src line 257),
with Python truthiness of the optional string. -/
def reqFrozen (req : StockRequest) : Bool :=
  match req.notes with
  | Option.some n => decide (n ≠ "") && decide (pyStrip (pyLower n) = "freeze")
  | Option.none => false

/-- The synthetic minimal DataFrame built when the history fetch raises
(src line 275): 60 bars with close, high and low all at the resolved
price. -/
def syntheticDf (price : ℚ) : Df :=
  { high := List.replicate 60 price,
    low := List.replicate 60 price,
    close := List.replicate 60 price }

/-- `True` when `_fetch_prices_df` would raise for this provider state:
the fetch failed or the frame is empty (src lines 110-114). -/
def histMissing (p : Provider) : Bool :=
  match p.hist with
  | Option.some d => d.close.isEmpty
  | Option.none => true

/-- Steps 2-7 of `/analyze` (src lines 264-350), after the input check and
the analysis-cache lookups: resolve the price (404 when impossible),
fall back to the synthetic frame when the history fetch raises, take the
daily fundamentals snapshot (cache first), then assemble the scored
payload.  `today` is the UTC date string used in the fundamentals key.
`effectiveDf` is the history step: the fetched frame, or the synthetic
frame when the fetch raised or came back empty (src lines 270-275). -/
def effectiveDf (p : Provider) (price : ℚ) : Df :=
  match p.hist with
  | Option.some d => if d.close.isEmpty then syntheticDf price else d
  | Option.none => syntheticDf price

/-- See `effectiveDf`: the rest of the `/analyze` pipeline. -/
def analyzeFull (ticker style : String) (cache : Cache) (p : Provider) (now : ℚ)
    (today : String) : Except HErr AnalysisResult :=
  match p.dailyClose with
  | Option.none => Except.error { status := 404, detail := "Could not resolve price for " ++ ticker }
  | Option.some price =>
      let df := effectiveDf p price
      let fkey := "fund:" ++ ticker ++ ":" ++ today
      let fundamentals :=
        match cache.fund fkey with
        | Option.some e => if isFresh e.1 FUND_TTL_HOURS now then e.2 else fetchFundamentals p.fund
        | Option.none => fetchFundamentals p.fund
      let s := scoresFrom fundamentals
      let st := stance s.2.2.2
      let sig := sellSignal price df style
      Except.ok
        { ticker := ticker, style := style,
          companyName := p.longName, sector := p.sector,
          price := round4 price,
          stance := st,
          quantScore := s.1, qualityScore := s.2.1, catalystScore := s.2.2.1,
          overallScore := s.2.2.2,
          quantSummary := quantSummaryOf fundamentals,
          qualitySummary := qualitySummaryOf fundamentals,
          catalystSummary := catalystSummaryStr,
          aiSummary := aiSummaryOf ticker st s.2.2.2,
          fundamentalsJson := fundamentals,
          buySellZones := computeZones df price style,
          sellSignal := sig.1, sellReason := sig.2.1, stopLoss := sig.2.2,
          riskLevel := riskFromBeta (dictGet fundamentals "Beta"),
          educationalNotes := eduNotes,
          lastUpdated := now }

/-- Embedding of the `/analyze` route (src lines 246-350): normalise the
identifiers, reject an empty ticker with 400, serve a fresh cached
analysis (once behind the freeze directive, once unconditionally), and
otherwise run the full pipeline. -/
def analyze (req : StockRequest) (cache : Cache) (p : Provider) (now : ℚ)
    (today : String) : Except HErr AnalysisResult :=
  let ticker := reqTicker req
  let style := reqStyle req
  if ticker = "" then Except.error { status := 400, detail := "ticker required" }
  else
    match (if reqFrozen req then lookupFresh cache (reqAKey req) now else Option.none) with
    | Option.some d => Except.ok d
    | Option.none =>
        match lookupFresh cache (reqAKey req) now with
        | Option.some d => Except.ok d
        | Option.none => analyzeFull ticker style cache p now today

/-- The ordering of the three stances, Wait below Hold below Buy, used to
express the monotonicity part of claim C2. -/
def stanceRank (s : String) : Nat :=
  if s = "Buy" then 2 else if s = "Hold" then 1 else 0

/-- Spec-side definition for the refinement claim C3, written from the
spec's words: buy_zone is `[round(SMA - ATR, 4), round(SMA, 4)]` and
sell_zone is `[round(price + ATR, 4), round(price + 2*ATR, 4)]`, with SMA
window 50 and ATR window 14 for swing and 200/20 for investor, the last
defined SMA value defaulting to the current price and the last defined
ATR value defaulting to `max(0.02*price, 0.05)`. -/
def specSMA (df : Df) (price : ℚ) (style : String) : ℚ :=
  (lastValue (smaSeries df.close (if style = "investor" then 200 else 50))).getD price

/-- Spec-side last ATR value with the documented fallback (claim C3). -/
def specATR (df : Df) (price : ℚ) (style : String) : ℚ :=
  (lastValue (atrSeries df.high df.low df.close
    (if style = "investor" then 20 else 14))).getD (max ((0.02 : ℚ) * price) (0.05 : ℚ))

/-- Spec-side zone pair (claim C3): buy and sell zones from the spec words. -/
def specZones (df : Df) (price : ℚ) (style : String) : List ℚ × List ℚ :=
  ([round4 (specSMA df price style - specATR df price style),
    round4 (specSMA df price style)],
   [round4 (price + specATR df price style),
    round4 (price + 2 * specATR df price style)])

/-- A concrete analysis payload, used to exercise the cache-hit path. -/
def dummyResult : AnalysisResult :=
  { ticker := "A", style := "swing", companyName := Option.none, sector := Option.none,
    price := 1, stance := "Hold", quantScore := 50, qualityScore := 50, catalystScore := 50,
    overallScore := 50, quantSummary := "", qualitySummary := "", catalystSummary := "",
    aiSummary := "", fundamentalsJson := [],
    buySellZones := { buyZone := [], sellZone := [], rationale := "" },
    sellSignal := false, sellReason := Option.none, stopLoss := Option.none,
    riskLevel := "Low", educationalNotes := [], lastUpdated := 0 }

/-- A cache holding exactly one analysis entry, stored at time 0. -/
def cacheWith (k : String) (d : AnalysisResult) : Cache :=
  { analysis := fun q => if q = k then Option.some (0, d) else Option.none,
    fund := fun _ => Option.none }

/-- The empty cache. -/
def emptyCache : Cache :=
  { analysis := fun _ => Option.none, fund := fun _ => Option.none }

/-- A provider with no data at all. -/
def emptyProvider : Provider :=
  { dailyClose := Option.none, hist := Option.none, fund := ⟨true, Option.none⟩,
    longName := Option.none, sector := Option.none }

/-- A provider that resolves a daily close but whose history fetch fails. -/
def priceOnlyProvider (price : ℚ) : Provider :=
  { dailyClose := Option.some price, hist := Option.none, fund := ⟨true, Option.none⟩,
    longName := Option.none, sector := Option.none }

/-! ### Basic lemmas about the rolling helpers -/

theorem windowAt_length {s : List ℚ} {w i : Nat} (h : i < s.length) :
    (windowAt s w i).length = min (i + 1) w := by
  simp only [windowAt, List.length_drop, List.length_take]
  omega

theorem rollingMean_length (s : List ℚ) (w m : Nat) :
    (rollingMean s w m).length = s.length := by
  simp [rollingMean]

theorem rollingMean_getElem? {s : List ℚ} {w m i : Nat} (h : i < s.length) :
    (rollingMean s w m)[i]? =
      Option.some (if m ≤ min (i + 1) w then Option.some (listMean (windowAt s w i))
        else Option.none) := by
  simp only [rollingMean, List.getElem?_map, List.getElem?_range h]
  simp [windowAt_length h]

theorem lastValue_rollingMean {s : List ℚ} {w m : Nat} (h : s ≠ []) :
    lastValue (rollingMean s w m) =
      if m ≤ min s.length w then Option.some (listMean (windowAt s w (s.length - 1)))
      else Option.none := by
  have hlen : 0 < s.length := List.length_pos.mpr h
  have hsub : s.length - 1 + 1 = s.length := by omega
  unfold lastValue
  rw [List.getLast?_eq_getElem?, rollingMean_length,
    rollingMean_getElem? (show s.length - 1 < s.length by omega), hsub]
  rfl

theorem listMean_replicate {k : Nat} {p : ℚ} (h : 0 < k) :
    listMean (List.replicate k p) = p := by
  have hk : (k : ℚ) ≠ 0 := Nat.cast_ne_zero.mpr h.ne'
  simp only [listMean, List.sum_replicate, List.length_replicate, nsmul_eq_mul]
  field_simp

theorem windowAt_replicate {n w i : Nat} {p : ℚ} (h : i < n) :
    windowAt (List.replicate n p) w i = List.replicate (min (i + 1) w) p := by
  simp only [windowAt, List.take_replicate, List.drop_replicate]
  congr 1
  omega

theorem lastValue_rollingMean_replicate {n w m : Nat} {p : ℚ} (hn : 0 < n) (hm : 0 < m) :
    lastValue (rollingMean (List.replicate n p) w m) =
      if m ≤ min n w then Option.some p else Option.none := by
  have hne : List.replicate n p ≠ [] := by
    simpa using hn.ne'
  rw [lastValue_rollingMean hne]
  simp only [List.length_replicate]
  by_cases hcond : m ≤ min n w
  · rw [if_pos hcond, if_pos hcond, windowAt_replicate (by omega),
      listMean_replicate (by omega)]
  · rw [if_neg hcond, if_neg hcond]

theorem getD_replicate {n i : Nat} {p : ℚ} (h : i < n) :
    (List.replicate n p).getD i 0 = p := by
  rw [List.getD_eq_getElem?_getD, List.getElem?_replicate, if_pos h]
  rfl

theorem trueRange_length (h l c : List ℚ) : (trueRange h l c).length = h.length := by
  simp [trueRange]

theorem trueRange_replicate {n : Nat} {a b c : ℚ}
    (hmax : max (|a - b|) (max (|a - c|) (|b - c|)) = |a - b|) :
    trueRange (List.replicate n a) (List.replicate n b) (List.replicate n c) =
      List.replicate n (|a - b|) := by
  rw [List.eq_replicate_iff]
  refine ⟨by simp [trueRange], ?_⟩
  intro x hx
  simp only [trueRange, List.length_replicate, List.mem_map, List.mem_range] at hx
  obtain ⟨i, hi, rfl⟩ := hx
  match i with
  | 0 =>
      simp only
      rw [getD_replicate hi, getD_replicate hi]
  | Nat.succ j =>
      simp only
      rw [getD_replicate hi, getD_replicate hi, getD_replicate (show j < n by omega)]
      exact hmax

theorem atrSeries_replicate {n w : Nat} {a b c : ℚ} (hn : 0 < n) (hw : 0 < minPeriodsOf w)
    (hmax : max (|a - b|) (max (|a - c|) (|b - c|)) = |a - b|) :
    lastValue (atrSeries (List.replicate n a) (List.replicate n b) (List.replicate n c) w) =
      if minPeriodsOf w ≤ min n w then Option.some (|a - b|) else Option.none := by
  unfold atrSeries
  rw [trueRange_replicate hmax, lastValue_rollingMean_replicate hn hw]

/-! ### Rounding lemmas -/

theorem rhe_intCast (m : ℤ) : rhe (m : ℚ) = m := by
  simp only [rhe, Int.floor_intCast, sub_self]
  norm_num

theorem round4_intCast (m : ℤ) : round4 ((m : ℚ)) = (m : ℚ) := by
  unfold round4
  have h : ((m : ℚ)) * 10000 = ((m * 10000 : ℤ) : ℚ) := by push_cast; ring
  rw [h, rhe_intCast]
  push_cast
  field_simp

/-! ### The synthetic 60-bar frame -/

theorem minPeriodsOf_pos (w : Nat) : 0 < minPeriodsOf w := by
  unfold minPeriodsOf
  omega

theorem safeFloat_ofNanOpt (x : Option ℚ) (fb : ℚ) :
    (safeFloat (ofNanOpt x) (Option.some fb)).getD fb = x.getD fb := by
  cases x <;> rfl

theorem zonesMA_eq_specSMA (df : Df) (price : ℚ) (style : String) :
    zonesMA df price style = specSMA df price style := by
  unfold zonesMA specSMA smaSeries
  rw [safeFloat_ofNanOpt]
  by_cases hs : style = "investor"
  · rw [hs]
    rfl
  · have h1 : zoneParams style = (50, 14) := by
      unfold zoneParams
      rw [if_neg hs]
    have h2 : (if style = "investor" then (200 : Nat) else 50) = 50 := by
      rw [if_neg hs]
    rw [h1, h2]

theorem zonesATR_eq_specATR (df : Df) (price : ℚ) (style : String) :
    zonesATR df price style = specATR df price style := by
  unfold zonesATR specATR zonesATRFb
  rw [safeFloat_ofNanOpt]
  by_cases hs : style = "investor"
  · rw [hs]
    rfl
  · have h1 : zoneParams style = (50, 14) := by
      unfold zoneParams
      rw [if_neg hs]
    have h2 : (if style = "investor" then (20 : Nat) else 14) = 14 := by
      rw [if_neg hs]
    rw [h1, h2]

theorem specSMA_synthetic (p : ℚ) (style : String) : specSMA (syntheticDf p) p style = p := by
  unfold specSMA syntheticDf smaSeries
  by_cases hs : style = "investor"
  · rw [if_pos hs]
    show (lastValue (rollingMean (List.replicate 60 p) 200 (minPeriodsOf 200))).getD p = p
    rw [lastValue_rollingMean_replicate (by norm_num) (minPeriodsOf_pos 200), if_neg (by decide)]
    rfl
  · rw [if_neg hs]
    show (lastValue (rollingMean (List.replicate 60 p) 50 (minPeriodsOf 50))).getD p = p
    rw [lastValue_rollingMean_replicate (by norm_num) (minPeriodsOf_pos 50), if_pos (by decide)]
    rfl

theorem specATR_synthetic (p : ℚ) (style : String) : specATR (syntheticDf p) p style = 0 := by
  unfold specATR syntheticDf
  by_cases hs : style = "investor"
  · rw [if_pos hs]
    show (lastValue (atrSeries (List.replicate 60 p) (List.replicate 60 p)
      (List.replicate 60 p) 20)).getD (max ((0.02 : ℚ) * p) (0.05 : ℚ)) = 0
    rw [atrSeries_replicate (by norm_num) (minPeriodsOf_pos 20) (by simp), if_pos (by decide)]
    simp
  · rw [if_neg hs]
    show (lastValue (atrSeries (List.replicate 60 p) (List.replicate 60 p)
      (List.replicate 60 p) 14)).getD (max ((0.02 : ℚ) * p) (0.05 : ℚ)) = 0
    rw [atrSeries_replicate (by norm_num) (minPeriodsOf_pos 14) (by simp), if_pos (by decide)]
    simp

theorem computeZones_synthetic (p : ℚ) (style : String) :
    (computeZones (syntheticDf p) p style).buyZone = [round4 p, round4 p] ∧
    (computeZones (syntheticDf p) p style).sellZone = [round4 p, round4 p] := by
  have hma : zonesMA (syntheticDf p) p style = p := by
    rw [zonesMA_eq_specSMA, specSMA_synthetic]
  have hatr : zonesATR (syntheticDf p) p style = 0 := by
    rw [zonesATR_eq_specATR, specATR_synthetic]
  constructor
  · show [round4 (zonesMA (syntheticDf p) p style - zonesATR (syntheticDf p) p style),
      round4 (zonesMA (syntheticDf p) p style)] = [round4 p, round4 p]
    rw [hma, hatr, sub_zero]
  · show [round4 (p + zonesATR (syntheticDf p) p style),
      round4 (p + 2 * zonesATR (syntheticDf p) p style)] = [round4 p, round4 p]
    rw [hatr, mul_zero, add_zero]

theorem sellSignal_none (style : String) {price : ℚ} {df : Df}
    (h : lastValue (rollingMean df.close (sellParams style).1
      (minPeriodsOf (sellParams style).1)) = Option.none) :
    sellSignal price df style = (false, Option.none, Option.none) := by
  unfold sellSignal
  rw [h]

theorem sellSignal_some (style : String) {price ma : ℚ} {df : Df}
    (h : lastValue (rollingMean df.close (sellParams style).1
      (minPeriodsOf (sellParams style).1)) = Option.some ma) :
    sellSignal price df style =
      if price < ma * (1 - (sellParams style).2) then
        (true,
         Option.some ("Close < SMA" ++ toString (sellParams style).1 ++ " by "
           ++ toString ⌊(sellParams style).2 * 100⌋ ++ "%"),
         Option.some (round4 (ma * (1 - 2 * (sellParams style).2))))
      else (false, Option.none, Option.none) := by
  unfold sellSignal
  rw [h]

theorem sellSignal_synthetic_inv (p : ℚ) :
    sellSignal p (syntheticDf p) "investor" = (false, Option.none, Option.none) := by
  refine sellSignal_none "investor" ?_
  show lastValue (rollingMean (List.replicate 60 p) 200 (minPeriodsOf 200)) = Option.none
  rw [lastValue_rollingMean_replicate (by norm_num) (minPeriodsOf_pos 200), if_neg (by decide)]

theorem sellSignal_synthetic_noninv (p : ℚ) (style : String) (hs : style ≠ "investor") :
    sellSignal p (syntheticDf p) style =
      if p < p * (1 - (0.03 : ℚ)) then
        (true,
         Option.some ("Close < SMA" ++ toString (50 : Nat) ++ " by "
           ++ toString ⌊(0.03 : ℚ) * 100⌋ ++ "%"),
         Option.some (round4 (p * (1 - 2 * (0.03 : ℚ)))))
      else (false, Option.none, Option.none) := by
  have hsp : sellParams style = (50, (0.03 : ℚ)) := by
    unfold sellParams
    rw [if_neg hs]
  have hma : lastValue (rollingMean (syntheticDf p).close (sellParams style).1
      (minPeriodsOf (sellParams style).1)) = Option.some p := by
    rw [hsp]
    show lastValue (rollingMean (List.replicate 60 p) 50 (minPeriodsOf 50)) = Option.some p
    rw [lastValue_rollingMean_replicate (by norm_num) (minPeriodsOf_pos 50), if_pos (by decide)]
  rw [sellSignal_some style hma, hsp]

theorem sellSignal_synthetic_nonneg (p : ℚ) (style : String) (hp : 0 ≤ p) :
    sellSignal p (syntheticDf p) style = (false, Option.none, Option.none) := by
  by_cases hs : style = "investor"
  · rw [hs]
    exact sellSignal_synthetic_inv p
  · rw [sellSignal_synthetic_noninv p style hs, if_neg]
    intro hcon
    nlinarith [mul_nonneg (show (0 : ℚ) ≤ (0.03 : ℚ) by norm_num) hp]

theorem analyzeFull_synthetic (ticker style : String) (cache : Cache) (pr : Provider)
    (now : ℚ) (today : String) (price : ℚ) (hp : pr.dailyClose = Option.some price)
    (hh : histMissing pr = true) :
    ∃ r, analyzeFull ticker style cache pr now today = Except.ok r ∧
      r.buySellZones = computeZones (syntheticDf price) price style ∧
      r.sellSignal = (sellSignal price (syntheticDf price) style).1 ∧
      r.sellReason = (sellSignal price (syntheticDf price) style).2.1 ∧
      r.stopLoss = (sellSignal price (syntheticDf price) style).2.2 ∧
      r.price = round4 price := by
  have hdf : effectiveDf pr price = syntheticDf price := by
    unfold effectiveDf histMissing at *
    match hm : pr.hist with
    | Option.none => rfl
    | Option.some d =>
        rw [hm] at hh
        simp only at hh
        show (if d.close.isEmpty = true then syntheticDf price else d) = syntheticDf price
        rw [if_pos hh]
  simp only [analyzeFull, hp, hdf]
  exact ⟨_, rfl, rfl, rfl, rfl, rfl, rfl⟩

/-! ### Score clamping -/

theorem clampScore_nonneg (x : ℚ) : 0 ≤ clampScore x := by
  unfold clampScore
  exact_mod_cast le_max_left 0 (min 100 (rhe x))

theorem clampScore_le (x : ℚ) : clampScore x ≤ 100 := by
  unfold clampScore
  exact_mod_cast max_le (by norm_num) (min_le_left 100 (rhe x))

/-! ### Claim theorems -/

/-- C1: for every fundamentals snapshot, including out-of-range PE, Beta
and Debt/Equity values, the three sub-scores of `_scores_from` lie in
[0,100] after clamping (each being the clamp, with round to nearest
integer-valued float, of 50 plus the documented additive adjustments),
and `overall = round(0.4*quant + 0.4*quality + 0.2*catalyst, 2)`. -/
theorem c1_subscores_clamped (f : List (String × Option ℚ)) :
    (0 ≤ (scoresFrom f).1 ∧ (scoresFrom f).1 ≤ 100) ∧
    (0 ≤ (scoresFrom f).2.1 ∧ (scoresFrom f).2.1 ≤ 100) ∧
    (0 ≤ (scoresFrom f).2.2.1 ∧ (scoresFrom f).2.2.1 ≤ 100) ∧
    (scoresFrom f).2.2.2 =
      round2 ((0.4 : ℚ) * (scoresFrom f).1 + (0.4 : ℚ) * (scoresFrom f).2.1
        + (0.2 : ℚ) * (scoresFrom f).2.2.1) ∧
    (scoresFrom f).1 = clampScore (rawQuant f) ∧
    (scoresFrom f).2.1 = clampScore (rawQuality f) ∧
    (scoresFrom f).2.2.1 = clampScore (rawCatalyst f) :=
  ⟨⟨clampScore_nonneg _, clampScore_le _⟩,
   ⟨clampScore_nonneg _, clampScore_le _⟩,
   ⟨clampScore_nonneg _, clampScore_le _⟩,
   rfl, rfl, rfl, rfl⟩

/-- C2: `_stance` maps overall ≥ 70 to Buy, 55-69 to Hold, below 55 to
Wait, with the thresholds inclusive at the lower bound of each band
(69 to Hold, 70 to Buy, 54 to Wait, 55 to Hold), and the stance is
monotonic in the overall score. -/
theorem c2_stance_bands :
    (∀ o : ℚ, 70 ≤ o → stance o = "Buy") ∧
    (∀ o : ℚ, 55 ≤ o → o < 70 → stance o = "Hold") ∧
    (∀ o : ℚ, o < 55 → stance o = "Wait") ∧
    stance 69 = "Hold" ∧ stance 70 = "Buy" ∧ stance 54 = "Wait" ∧ stance 55 = "Hold" ∧
    (∀ a b : ℚ, a ≤ b → stanceRank (stance a) ≤ stanceRank (stance b)) := by
  refine ⟨?_, ?_, ?_, ?_, ?_, ?_, ?_, ?_⟩
  · intro o h
    rw [stance, if_pos h]
  · intro o h1 h2
    rw [stance, if_neg (by linarith), if_pos h1]
  · intro o h
    rw [stance, if_neg (by linarith), if_neg (by linarith)]
  · norm_num [stance]
  · norm_num [stance]
  · norm_num [stance]
  · norm_num [stance]
  · intro a b hab
    unfold stance
    split_ifs <;> first | decide | (exfalso; linarith)

/-- C2 witness: the four boundary values, through the theorem itself. -/
theorem c2_stance_bands_witness :
    stance 70 = "Buy" ∧ stance 69 = "Hold" ∧ stance 54 = "Wait" ∧
    stanceRank (stance 54) ≤ stanceRank (stance 70) :=
  ⟨c2_stance_bands.1 70 (by norm_num),
   c2_stance_bands.2.1 69 (by norm_num) (by norm_num),
   c2_stance_bands.2.2.1 54 (by norm_num),
   c2_stance_bands.2.2.2.2.2.2.2 54 70 (by norm_num)⟩

/-- C5: `_safe_float` always returns the fallback or a finite value and
never raises: `None` maps to the fallback, finite numerics are cast to
float, non-finite floats map to the fallback, strings are cleaned of
thousands separators and percent signs, stripped and parsed (parse
failure mapping to the fallback), any other type maps to the fallback;
`"1,234.56%"` parses to 1234.56. -/
theorem c5_safe_float (v : PyVal) (fb : Option ℚ) :
    (safeFloat v fb = fb ∨ ∃ q, safeFloat v fb = Option.some q) ∧
    safeFloat PyVal.none fb = fb ∧
    (∀ q, safeFloat (PyVal.float (PyFloat.finite q)) fb = Option.some q) ∧
    (∀ n : ℤ, safeFloat (PyVal.int n) fb = Option.some ((n : ℚ))) ∧
    safeFloat (PyVal.float PyFloat.nan) fb = fb ∧
    safeFloat (PyVal.float PyFloat.inf) fb = fb ∧
    safeFloat (PyVal.float PyFloat.ninf) fb = fb ∧
    (∀ s, safeFloat (PyVal.str s) fb =
      match parseFloat (cleanNumStr s) with
      | Option.some x => Option.some x
      | Option.none => fb) ∧
    safeFloat PyVal.other fb = fb ∧
    safeFloat (PyVal.str "1,234.56%") fb = Option.some ((1234.56 : ℚ)) := by
  refine ⟨?_, rfl, fun q => rfl, fun n => rfl, rfl, rfl, rfl, fun s => rfl, rfl, ?_⟩
  · match v with
    | PyVal.none => exact Or.inl rfl
    | PyVal.int n => exact Or.inr ⟨n, rfl⟩
    | PyVal.bool b => exact Or.inr ⟨if b then 1 else 0, rfl⟩
    | PyVal.float (PyFloat.finite q) => exact Or.inr ⟨q, rfl⟩
    | PyVal.float PyFloat.nan => exact Or.inl rfl
    | PyVal.float PyFloat.inf => exact Or.inl rfl
    | PyVal.float PyFloat.ninf => exact Or.inl rfl
    | PyVal.other => exact Or.inl rfl
    | PyVal.str s =>
        cases h : parseFloat (cleanNumStr s) with
        | none =>
            refine Or.inl ?_
            show (match parseFloat (cleanNumStr s) with
              | Option.some x => Option.some x
              | Option.none => fb) = fb
            rw [h]
        | some x =>
            refine Or.inr ⟨x, ?_⟩
            show (match parseFloat (cleanNumStr s) with
              | Option.some x => Option.some x
              | Option.none => fb) = Option.some x
            rw [h]
  · have hclean : cleanNumStr "1,234.56%" = "1234.56" := by decide
    have hparts : parseParts ("1234.56").toList = Option.some (false, 1234, 56, 2) := by decide
    show (match parseFloat (cleanNumStr "1,234.56%") with
      | Option.some x => Option.some x
      | Option.none => fb) = Option.some ((1234.56 : ℚ))
    rw [hclean]
    unfold parseFloat
    rw [hparts]
    norm_num

/-- C6: `_fetch_fundamentals` always returns a snapshot with exactly the
nine canonical keys, each value null or a finite float, and returns the
all-null snapshot on a provider-side failure. -/
theorem c6_fundamentals_snapshot (fs : FundSource) :
    (fetchFundamentals fs).map Prod.fst = canonicalKeys ∧
    (∀ kv ∈ fetchFundamentals fs, kv.2 = Option.none ∨ ∃ q, kv.2 = Option.some q) ∧
    (fs.raises = true → fetchFundamentals fs = nullSnapshot) := by
  refine ⟨?_, ?_, ?_⟩
  · unfold fetchFundamentals
    by_cases h : fs.raises <;> simp [h, nullSnapshot, canonicalKeys]
  · intro kv _
    match hv : kv.2 with
    | Option.none => exact Or.inl rfl
    | Option.some q => exact Or.inr ⟨q, rfl⟩
  · intro h
    unfold fetchFundamentals
    rw [if_pos h]

/-- C6 witness: a raising provider yields the all-null snapshot, and its
keys are the canonical nine. -/
theorem c6_fundamentals_snapshot_witness :
    fetchFundamentals ⟨true, Option.none⟩ = nullSnapshot ∧
    (fetchFundamentals ⟨true, Option.none⟩).map Prod.fst = canonicalKeys :=
  ⟨(c6_fundamentals_snapshot ⟨true, Option.none⟩).2.2 rfl,
   (c6_fundamentals_snapshot ⟨true, Option.none⟩).1⟩

/-- C3: `_compute_zones` returns exactly the zones the spec describes
(for every price series, latest price and style, with the documented
windows and fallbacks), and on the spec's example - price 100, last
SMA50 95, last ATR14 5 - yields buy_zone [90, 95] and
sell_zone [105, 110]. -/
theorem c3_zones_spec (df : Df) (price : ℚ) (style : String) :
    ((computeZones df price style).buyZone = (specZones df price style).1 ∧
     (computeZones df price style).sellZone = (specZones df price style).2) ∧
    (∀ df2 : Df, lastValue (smaSeries df2.close 50) = Option.some 95 →
      lastValue (atrSeries df2.high df2.low df2.close 14) = Option.some 5 →
      (computeZones df2 100 "swing").buyZone = [90, 95] ∧
      (computeZones df2 100 "swing").sellZone = [105, 110]) := by
  constructor
  · constructor
    · show [round4 (zonesMA df price style - zonesATR df price style),
        round4 (zonesMA df price style)] =
        [round4 (specSMA df price style - specATR df price style),
         round4 (specSMA df price style)]
      rw [zonesMA_eq_specSMA, zonesATR_eq_specATR]
    · show [round4 (price + zonesATR df price style),
        round4 (price + 2 * zonesATR df price style)] =
        [round4 (price + specATR df price style),
         round4 (price + 2 * specATR df price style)]
      rw [zonesATR_eq_specATR]
  · intro df2 h1 h2
    have hma : zonesMA df2 100 "swing" = 95 := by
      rw [zonesMA_eq_specSMA]
      unfold specSMA
      rw [show (if ("swing" : String) = "investor" then (200 : Nat) else 50) = 50 from rfl, h1]
      rfl
    have hatr : zonesATR df2 100 "swing" = 5 := by
      rw [zonesATR_eq_specATR]
      unfold specATR
      rw [show (if ("swing" : String) = "investor" then (20 : Nat) else 14) = 14 from rfl, h2]
      rfl
    constructor
    · show [round4 (zonesMA df2 100 "swing" - zonesATR df2 100 "swing"),
        round4 (zonesMA df2 100 "swing")] = [90, 95]
      rw [hma, hatr]
      norm_num [round4, rhe]
    · show [round4 ((100 : ℚ) + zonesATR df2 100 "swing"),
        round4 ((100 : ℚ) + 2 * zonesATR df2 100 "swing")] = [105, 110]
      rw [hatr]
      norm_num [round4, rhe]

/-- C3 witness: a concrete 50-bar frame with highs 100 and lows/closes 95
realises the spec's example through the theorem. -/
theorem c3_zones_spec_witness :
    (computeZones ⟨List.replicate 50 100, List.replicate 50 95, List.replicate 50 95⟩
      100 "swing").buyZone = [90, 95] ∧
    (computeZones ⟨List.replicate 50 100, List.replicate 50 95, List.replicate 50 95⟩
      100 "swing").sellZone = [105, 110] := by
  refine (c3_zones_spec ⟨[], [], []⟩ 0 "swing").2
    ⟨List.replicate 50 100, List.replicate 50 95, List.replicate 50 95⟩ ?_ ?_
  · show lastValue (rollingMean (List.replicate 50 (95 : ℚ)) 50 (minPeriodsOf 50))
      = Option.some 95
    rw [lastValue_rollingMean_replicate (by norm_num) (minPeriodsOf_pos 50),
      if_pos (by decide)]
  · show lastValue (atrSeries (List.replicate 50 (100 : ℚ)) (List.replicate 50 95)
      (List.replicate 50 95) 14) = Option.some 5
    rw [atrSeries_replicate (by norm_num) (minPeriodsOf_pos 14) (by norm_num),
      if_pos (by decide)]
    norm_num

/-- C4: `_sell_signal` with style swing (SMA window 50, threshold 3%) and
investor (window 200, threshold 5%) triggers exactly when
`price < SMA*(1 - threshold)`, with the templated reason and
`stop_loss = round(SMA*(1 - 2*threshold), 4)`, returns no signal with
null reason and stop when no SMA value is available, and on the spec's
example (swing, price 90, SMA50 100) triggers with stop_loss 94. -/
theorem c4_sell_signal (price : ℚ) (df : Df) :
    (lastValue (smaSeries df.close 50) = Option.none →
      sellSignal price df "swing" = (false, Option.none, Option.none)) ∧
    (∀ ma, lastValue (smaSeries df.close 50) = Option.some ma →
      sellSignal price df "swing" =
        if price < ma * (1 - (0.03 : ℚ)) then
          (true, Option.some "Close < SMA50 by 3%",
           Option.some (round4 (ma * (1 - 2 * (0.03 : ℚ)))))
        else (false, Option.none, Option.none)) ∧
    (lastValue (smaSeries df.close 200) = Option.none →
      sellSignal price df "investor" = (false, Option.none, Option.none)) ∧
    (∀ ma, lastValue (smaSeries df.close 200) = Option.some ma →
      sellSignal price df "investor" =
        if price < ma * (1 - (0.05 : ℚ)) then
          (true, Option.some "Close < SMA200 by 5%",
           Option.some (round4 (ma * (1 - 2 * (0.05 : ℚ)))))
        else (false, Option.none, Option.none)) ∧
    (lastValue (smaSeries df.close 50) = Option.some 100 →
      sellSignal 90 df "swing" =
        (true, Option.some "Close < SMA50 by 3%", Option.some 94)) := by
  have hs3 : ("Close < SMA" ++ toString (50 : Nat) ++ " by "
      ++ toString ⌊(0.03 : ℚ) * 100⌋ ++ "%") = "Close < SMA50 by 3%" := by
    rw [show ⌊(0.03 : ℚ) * 100⌋ = 3 by norm_num]
    decide
  have hs5 : ("Close < SMA" ++ toString (200 : Nat) ++ " by "
      ++ toString ⌊(0.05 : ℚ) * 100⌋ ++ "%") = "Close < SMA200 by 5%" := by
    rw [show ⌊(0.05 : ℚ) * 100⌋ = 5 by norm_num]
    decide
  have hsw : sellParams "swing" = (50, (0.03 : ℚ)) := rfl
  have hiv : sellParams "investor" = (200, (0.05 : ℚ)) := rfl
  refine ⟨?_, ?_, ?_, ?_, ?_⟩
  · intro h
    exact sellSignal_none "swing" h
  · intro ma h
    rw [sellSignal_some "swing" h, hsw]
    dsimp only
    rw [hs3]
  · intro h
    exact sellSignal_none "investor" h
  · intro ma h
    rw [sellSignal_some "investor" h, hiv]
    dsimp only
    rw [hs5]
  · intro h
    rw [sellSignal_some "swing" h, hsw]
    dsimp only
    rw [hs3, if_pos (by norm_num : (90 : ℚ) < 100 * (1 - (0.03 : ℚ)))]
    rw [show (100 : ℚ) * (1 - 2 * (0.03 : ℚ)) = 94 by norm_num]
    rw [show round4 (94 : ℚ) = 94 by norm_num [round4, rhe]]

/-- C4 witness: a concrete 50-bar frame with closes at 100 realises the
spec's example through the theorem. -/
theorem c4_sell_signal_witness :
    sellSignal 90 ⟨List.replicate 50 100, List.replicate 50 100, List.replicate 50 100⟩
      "swing" = (true, Option.some "Close < SMA50 by 3%", Option.some 94) := by
  refine (c4_sell_signal 90
    ⟨List.replicate 50 100, List.replicate 50 100, List.replicate 50 100⟩).2.2.2.2 ?_
  show lastValue (rollingMean (List.replicate 50 (100 : ℚ)) 50 (minPeriodsOf 50))
    = Option.some 100
  rw [lastValue_rollingMean_replicate (by norm_num) (minPeriodsOf_pos 50),
    if_pos (by decide)]

/-- C7 counterexample: the claim's minimum-period rule `ceil(w/2)` (floored
at 2) fails against the code's `max(2, w // 2)`.  With window 5 the code
already produces an SMA value at position 1 of a two-bar series (only 2
bars available), although `max(2, ceil(5/2)) = 3` bars would be required
by the claim, under which the position would have to be undefined. -/
theorem c7_counterexample :
    (smaSeries [(1 : ℚ), 2] 5).getD 1 Option.none = Option.some (3 / 2) ∧
    ¬ (max 2 ((5 + 1) / 2) ≤ 1 + 1) := by
  constructor
  · unfold smaSeries
    rw [List.getD_eq_getElem?_getD,
      rollingMean_getElem? (show 1 < ([(1 : ℚ), 2]).length by norm_num),
      Option.getD_some, if_pos (by decide)]
    rw [show windowAt [(1 : ℚ), 2] 5 1 = [1, 2] from rfl]
    unfold listMean
    norm_num [List.sum_cons, List.sum_nil]
  · decide

/-- C7 (amended): for every series and window `w ≥ 2`, the rolling SMA and
rolling ATR mean produce a defined value at a position exactly when at
least `max(2, w // 2)` bars (minimum half the window rounded down,
floored at 2 - not `ceil(w/2)`) are available there, and the output
series has the same length as the input. -/
theorem c7_amended_min_periods (s h l c : List ℚ) (w i : Nat) (hw : 2 ≤ w) :
    (smaSeries s w).length = s.length ∧
    (atrSeries h l c w).length = h.length ∧
    (i < s.length →
      ((smaSeries s w).getD i Option.none ≠ Option.none ↔ max 2 (w / 2) ≤ i + 1)) ∧
    (i < h.length →
      ((atrSeries h l c w).getD i Option.none ≠ Option.none ↔ max 2 (w / 2) ≤ i + 1)) := by
  refine ⟨rollingMean_length _ _ _, ?_, ?_, ?_⟩
  · unfold atrSeries
    rw [rollingMean_length, trueRange_length]
  · intro hi
    unfold smaSeries
    rw [List.getD_eq_getElem?_getD, rollingMean_getElem? hi, Option.getD_some]
    unfold minPeriodsOf
    by_cases hcond : max 2 (w / 2) ≤ min (i + 1) w
    · rw [if_pos hcond]
      constructor
      · intro _
        omega
      · intro _
        exact Option.some_ne_none _
    · rw [if_neg hcond]
      constructor
      · intro hne
        exact absurd rfl hne
      · intro hle
        exfalso
        omega
  · intro hi
    have hi2 : i < (trueRange h l c).length := by
      rw [trueRange_length]
      exact hi
    unfold atrSeries
    rw [List.getD_eq_getElem?_getD, rollingMean_getElem? hi2, Option.getD_some]
    unfold minPeriodsOf
    by_cases hcond : max 2 (w / 2) ≤ min (i + 1) w
    · rw [if_pos hcond]
      constructor
      · intro _
        omega
      · intro _
        exact Option.some_ne_none _
    · rw [if_neg hcond]
      constructor
      · intro hne
        exact absurd rfl hne
      · intro hle
        exfalso
        omega

/-- C7 witness: the amended rule evaluated on a three-bar series with
window 4 at the last position. -/
theorem c7_amended_min_periods_witness :
    (smaSeries [(1 : ℚ), 2, 3] 4).length = [(1 : ℚ), 2, 3].length ∧
    ((smaSeries [(1 : ℚ), 2, 3] 4).getD 2 Option.none ≠ Option.none ↔
      max 2 (4 / 2) ≤ 2 + 1) ∧
    ((atrSeries [(1 : ℚ), 2, 3] [(1 : ℚ), 2, 3] [(1 : ℚ), 2, 3] 4).getD 2 Option.none
      ≠ Option.none ↔ max 2 (4 / 2) ≤ 2 + 1) := by
  have h := c7_amended_min_periods [(1 : ℚ), 2, 3] [(1 : ℚ), 2, 3] [(1 : ℚ), 2, 3]
    [(1 : ℚ), 2, 3] 4 2 (by norm_num)
  exact ⟨h.1, h.2.2.1 (by norm_num), h.2.2.2 (by norm_num)⟩

/-! ### The route-level cache behaviour -/

theorem analyze_fresh_hit (req : StockRequest) (cache : Cache) (p : Provider) (now : ℚ)
    (today : String) (d : AnalysisResult) (ht : reqTicker req ≠ "")
    (hfresh : lookupFresh cache (reqAKey req) now = Option.some d) :
    analyze req cache p now today = Except.ok d := by
  unfold analyze
  rw [if_neg ht]
  cases hF : reqFrozen req <;> simp [hF, hfresh]

theorem analyze_cache_miss (req : StockRequest) (cache : Cache) (p : Provider) (now : ℚ)
    (today : String) (ht : reqTicker req ≠ "")
    (hc : lookupFresh cache (reqAKey req) now = Option.none) :
    analyze req cache p now today
      = analyzeFull (reqTicker req) (reqStyle req) cache p now today := by
  unfold analyze
  rw [if_neg ht]
  cases hF : reqFrozen req <;> simp [hF, hc]

/-- C8: on a fresh analysis-cache hit the freeze directive returns the
identical cached payload without consulting the provider, and in fact the
freeze directive changes nothing at all relative to the same request
without it (it is only a distinct, earlier-checked branch), so it can
never extend a stale entry's life. -/
theorem c8_freeze_noop (t tf st : String) (cache : Cache) (p p2 : Provider) (now : ℚ)
    (today : String) :
    analyze ⟨t, tf, st, Option.some "freeze"⟩ cache p now today
      = analyze ⟨t, tf, st, Option.none⟩ cache p now today ∧
    (∀ d, reqTicker ⟨t, tf, st, Option.some "freeze"⟩ ≠ "" →
      lookupFresh cache (reqAKey ⟨t, tf, st, Option.some "freeze"⟩) now = Option.some d →
      analyze ⟨t, tf, st, Option.some "freeze"⟩ cache p now today = Except.ok d ∧
      analyze ⟨t, tf, st, Option.some "freeze"⟩ cache p now today
        = analyze ⟨t, tf, st, Option.some "freeze"⟩ cache p2 now today) := by
  have hfr1 : reqFrozen ⟨t, tf, st, Option.some "freeze"⟩ = true := rfl
  have hfr2 : reqFrozen ⟨t, tf, st, Option.none⟩ = false := rfl
  have hticker : reqTicker ⟨t, tf, st, Option.none⟩
      = reqTicker ⟨t, tf, st, Option.some "freeze"⟩ := rfl
  have hstyle : reqStyle ⟨t, tf, st, Option.none⟩
      = reqStyle ⟨t, tf, st, Option.some "freeze"⟩ := rfl
  have hkey : reqAKey ⟨t, tf, st, Option.none⟩
      = reqAKey ⟨t, tf, st, Option.some "freeze"⟩ := rfl
  constructor
  · unfold analyze
    rw [hfr1, hfr2, hticker, hstyle, hkey]
    by_cases ht : reqTicker ⟨t, tf, st, Option.some "freeze"⟩ = ""
    · rw [if_pos ht, if_pos ht]
    · rw [if_neg ht, if_neg ht]
      cases hL : lookupFresh cache (reqAKey ⟨t, tf, st, Option.some "freeze"⟩) now <;>
        simp [hL]
  · intro d ht hfresh
    refine ⟨analyze_fresh_hit _ cache p now today d ht hfresh, ?_⟩
    rw [analyze_fresh_hit _ cache p now today d ht hfresh,
      analyze_fresh_hit _ cache p2 now today d ht hfresh]

/-- C8 witness: a concrete fresh cache entry is returned as-is under the
freeze directive, identically across two different providers. -/
theorem c8_freeze_noop_witness :
    analyze ⟨"A", "6mo", "swing", Option.some "freeze"⟩
        (cacheWith (reqAKey ⟨"A", "6mo", "swing", Option.some "freeze"⟩) dummyResult)
        emptyProvider 1 "d"
      = Except.ok dummyResult ∧
    analyze ⟨"A", "6mo", "swing", Option.some "freeze"⟩
        (cacheWith (reqAKey ⟨"A", "6mo", "swing", Option.some "freeze"⟩) dummyResult)
        emptyProvider 1 "d"
      = analyze ⟨"A", "6mo", "swing", Option.some "freeze"⟩
          (cacheWith (reqAKey ⟨"A", "6mo", "swing", Option.some "freeze"⟩) dummyResult)
          (priceOnlyProvider 100) 1 "d" :=
  (c8_freeze_noop "A" "6mo" "swing"
      (cacheWith (reqAKey ⟨"A", "6mo", "swing", Option.some "freeze"⟩) dummyResult)
      emptyProvider (priceOnlyProvider 100) 1 "d").2 dummyResult
    (by decide)
    (by
      simp only [lookupFresh, cacheWith, if_pos, isFresh, ANALYSIS_TTL_HOURS]
      norm_num)

/-- C9: `analyze` rejects an empty (post-normalisation) security identifier
with a 400 before any computation - uniformly in the cache, the provider
and the clock - and, when no price is resolvable, rejects with a 404
not-found carrying the ticker, fabricating no price. -/
theorem c9_rejections (req : StockRequest) (cache : Cache) (p : Provider)
    (now : ℚ) (today : String) :
    (reqTicker req = "" →
      analyze req cache p now today
        = Except.error { status := 400, detail := "ticker required" }) ∧
    (reqTicker req ≠ "" →
      lookupFresh cache (reqAKey req) now = Option.none →
      p.dailyClose = Option.none →
      analyze req cache p now today
        = Except.error (HErr.mk 404 ("Could not resolve price for " ++ reqTicker req))) := by
  constructor
  · intro h
    unfold analyze
    rw [if_pos h]
  · intro ht hc hp
    rw [analyze_cache_miss req cache p now today ht hc]
    unfold analyzeFull
    rw [hp]

/-- C9 witness: the empty ticker is rejected with 400, and an unresolvable
price with 404, on concrete inputs. -/
theorem c9_rejections_witness :
    analyze ⟨"", "6mo", "swing", Option.none⟩ emptyCache emptyProvider 0 "d"
      = Except.error { status := 400, detail := "ticker required" } ∧
    analyze ⟨"A", "6mo", "swing", Option.none⟩ emptyCache emptyProvider 0 "d"
      = Except.error { status := 404, detail := "Could not resolve price for A" } := by
  constructor
  · exact (c9_rejections ⟨"", "6mo", "swing", Option.none⟩ emptyCache emptyProvider
      0 "d").1 (by decide)
  · rw [(c9_rejections ⟨"A", "6mo", "swing", Option.none⟩ emptyCache emptyProvider
      0 "d").2 (by decide) rfl rfl]
    rw [show ("Could not resolve price for "
      ++ reqTicker ⟨"A", "6mo", "swing", Option.none⟩) = "Could not resolve price for A"
      by decide]

/-- C10 counterexample: the claim as stated fails at a negative resolved
price.  With the history fetch failing and a resolved daily close of
-1/3 (style swing), the synthetic 60-bar frame makes the SMA equal the
price, and since price < SMA*(1 - 0.03) for a negative price the sell
signal DOES trigger, and the buy zone is the 4-digit rounding of the
price, not the price itself. -/
theorem c10_counterexample :
    ∃ r, analyze ⟨"X", "6mo", "swing", Option.none⟩ emptyCache
        (priceOnlyProvider (-1/3)) 0 "d" = Except.ok r ∧
      r.sellSignal = true ∧
      r.buySellZones.buyZone ≠ [(-1/3 : ℚ), (-1/3 : ℚ)] := by
  rw [analyze_cache_miss ⟨"X", "6mo", "swing", Option.none⟩ emptyCache
    (priceOnlyProvider (-1/3)) 0 "d" (by decide) rfl]
  obtain ⟨r, hr, hz, h1, _, _, _⟩ :=
    analyzeFull_synthetic (reqTicker ⟨"X", "6mo", "swing", Option.none⟩)
      (reqStyle ⟨"X", "6mo", "swing", Option.none⟩) emptyCache
      (priceOnlyProvider (-1/3)) 0 "d" (-1/3) rfl rfl
  have hstyle : reqStyle ⟨"X", "6mo", "swing", Option.none⟩ = "swing" := by decide
  refine ⟨r, hr, ?_, ?_⟩
  · rw [h1, hstyle, sellSignal_synthetic_noninv (-1/3) "swing" (by decide),
      if_pos (by norm_num)]
  · rw [hz, hstyle]
    rw [(computeZones_synthetic (-1/3) "swing").1]
    intro hcon
    simp only [List.cons.injEq] at hcon
    have hne : round4 (-1/3 : ℚ) ≠ (-1/3 : ℚ) := by norm_num [round4, rhe]
    exact hne hcon.1

/-- C10 (amended): when the history fetch for the requested timeframe
fails or returns no rows while a daily close price was resolved, analyze
does not reject: it substitutes the synthetic 60-bar frame at that
price, so the SMA equals the price (directly or via the fallback), the
ATR is 0, buy and sell zones both collapse to
`[round(price, 4), round(price, 4)]`, and - provided the resolved price
is nonnegative - the sell signal does not trigger (for a negative price
with an available SMA it does trigger). -/
theorem c10_amended_synthetic_fallback (req : StockRequest) (cache : Cache) (p : Provider)
    (now : ℚ) (today : String) (price : ℚ)
    (ht : reqTicker req ≠ "")
    (hc : lookupFresh cache (reqAKey req) now = Option.none)
    (hp : p.dailyClose = Option.some price)
    (hh : histMissing p = true)
    (hpos : 0 ≤ price) :
    ∃ r, analyze req cache p now today = Except.ok r ∧
      r.sellSignal = false ∧ r.sellReason = Option.none ∧ r.stopLoss = Option.none ∧
      r.buySellZones.buyZone = [round4 price, round4 price] ∧
      r.buySellZones.sellZone = [round4 price, round4 price] ∧
      r.price = round4 price := by
  rw [analyze_cache_miss req cache p now today ht hc]
  obtain ⟨r, hr, hz, h1, h2, h3, hpr⟩ :=
    analyzeFull_synthetic (reqTicker req) (reqStyle req) cache p now today price hp hh
  refine ⟨r, hr, ?_, ?_, ?_, ?_, ?_, hpr⟩
  · rw [h1, sellSignal_synthetic_nonneg price (reqStyle req) hpos]
  · rw [h2, sellSignal_synthetic_nonneg price (reqStyle req) hpos]
  · rw [h3, sellSignal_synthetic_nonneg price (reqStyle req) hpos]
  · rw [hz]
    exact (computeZones_synthetic price (reqStyle req)).1
  · rw [hz]
    exact (computeZones_synthetic price (reqStyle req)).2

/-- C10 witness: the synthetic fallback on a concrete request at price
100 with a failing history fetch. -/
theorem c10_amended_synthetic_fallback_witness :
    ∃ r, analyze ⟨"A", "6mo", "swing", Option.none⟩ emptyCache
        (priceOnlyProvider 100) 0 "d" = Except.ok r ∧
      r.sellSignal = false ∧ r.sellReason = Option.none ∧ r.stopLoss = Option.none ∧
      r.buySellZones.buyZone = [round4 100, round4 100] ∧
      r.buySellZones.sellZone = [round4 100, round4 100] ∧
      r.price = round4 100 :=
  c10_amended_synthetic_fallback ⟨"A", "6mo", "swing", Option.none⟩ emptyCache
    (priceOnlyProvider 100) 0 "d" 100 (by decide) rfl rfl rfl (by norm_num)

end Stockron
